import Mathlib

/-!
Shallow embedding of `superset/connectors/connector_registry.py`
(class `ConnectorRegistry`) and proofs of the specification claims.

Modelling conventions:
* A datasource row (an instance of a concrete `BaseDatasource` model) is a
  `Row` with the fields the registry code touches: `id`, `database_id`,
  `perm`, `schema_perm`, `name`.
* A registered implementation class is an `Impl`: its constant `type` tag,
  its `default_query` scoping hook, and its own `get_datasource_by_name`
  classmethod.
* The SQLAlchemy `Session` is a `Session`: for each implementation class
  (identified by its tag) it yields either that class's table contents or a
  failure of the session itself.  `filter_by` / `filter` become `List.filter`
  on the materialised table, `.one_or_none()` / `.one()` become case analysis
  on the filtered list, mirroring SQLAlchemy's documented semantics:
  `.one_or_none()` returns `None` on zero rows and raises
  `MultipleResultsFound` on several; `.one()` raises `NoResultFound` on zero
  rows and `MultipleResultsFound` on several.
* Python exceptions become the error side of `Except PyErr`:
  `DatasetNotFoundError` (raised explicitly by `get_datasource`), `KeyError`
  (a `cls.sources[tag]` lookup with an unregistered tag), SQLAlchemy's
  `NoResultFound` and `MultipleResultsFound`, and an opaque `sessionError`
  for failures of the persistence session itself.
* `ConnectorRegistry.sources` is a Python 3.7 `dict`, i.e. an
  insertion-ordered map: assignment to an existing key replaces the value in
  place, assignment to a fresh key appends.  It is modelled as an
  association list `Registry` with exactly that update rule, and
  `sources.values()` iteration order is the list order.
-/

namespace Superset

/-- A Python exception escaping a `ConnectorRegistry` classmethod. -/
inductive PyErr where
  /-- Exception `superset.datasets.commands.exceptions.DatasetNotFoundError`. -/
  | datasetNotFound : PyErr
  /-- Python `KeyError` from `cls.sources[tag]` on an unregistered tag. -/
  | keyError : String → PyErr
  /-- Exception `sqlalchemy.orm.exc.NoResultFound`, with its message. -/
  | noResultFound : String → PyErr
  /-- Exception `sqlalchemy.orm.exc.MultipleResultsFound`. -/
  | multipleResultsFound : PyErr
  /-- A failure of the persistence session itself (connection loss, etc.). -/
  | sessionError : Nat → PyErr
deriving DecidableEq

/-- The `except NoResultFound` clause in `get_datasource_by_id` catches
exactly this exception class. -/
def PyErr.isNoResultFound : PyErr → Bool
  | .noResultFound _ => true
  | _ => false

/-- A datasource row, with the attributes the registry code reads. -/
structure Row where
  id : Int
  database_id : Int
  perm : String
  schema_perm : String
  name : String
deriving DecidableEq

/-- The persistence session: `session.query(cls)` materialises, per
implementation class (keyed by its type tag), either the class's table
contents or a failure of the session. -/
structure Session where
  table : String → Except PyErr (List Row)

/-- A registered datasource implementation class. -/
structure Impl where
  /-- The class's constant `type` attribute, used as its registry key. -/
  tag : String
  /-- The class's `default_query` scoping hook, applied to its query in
  `get_all_datasources` before materialisation. -/
  defaultQuery : List Row → List Row
  /-- The class's own `get_datasource_by_name` classmethod, to which the
  registry delegates. -/
  getByName : Session → String → String → String → Option Row

/-- A `Database` model: the registry only reads its `type` and `id`. -/
structure Database where
  id : Int
  type : String

/-- The class attribute `ConnectorRegistry.sources`, an insertion-ordered `dict` from type tag to
implementation class. -/
abbrev Registry := List (String × Impl)

/-- One Python dict assignment `cls.sources[t] = c`: replace the value at an
existing key in place, otherwise append the new entry. -/
def dictSet : Registry → String → Impl → Registry
  | [], t, c => [(t, c)]
  | p :: rest, t, c => if p.1 = t then (t, c) :: rest else p :: dictSet rest t c

/-- Lookup `cls.sources[t]` as a total function: the first entry with key `t`. -/
def lookupTag : Registry → String → Option Impl
  | [], _ => none
  | p :: rest, t => if p.1 = t then some p.2 else lookupTag rest t

/-- Classmethod `ConnectorRegistry.register_sources`: registers each configured class
under its `type` attribute, in configuration order.  (The dynamic
module-import step resolves class names to classes outside this component;
the configuration is therefore modelled as the resolved class list.) -/
def register_sources (regs : Registry) (config : List Impl) : Registry :=
  config.foldl (fun rs c => dictSet rs c.tag c) regs

/-- Classmethod `ConnectorRegistry.get_datasource`: membership test on `sources`, then
`filter_by(id=datasource_id).one_or_none()`, then `raise
DatasetNotFoundError` on `None`. -/
def get_datasource (regs : Registry) (datasource_type : String)
    (datasource_id : Int) (session : Session) : Except PyErr Row :=
  match lookupTag regs datasource_type with
  | none => .error .datasetNotFound
  | some c =>
    match session.table c.tag with
    | .error e => .error e
    | .ok rows =>
      match rows.filter (fun r => r.id = datasource_id) with
      | [] => .error .datasetNotFound
      | [r] => .ok r
      | _ => .error .multipleResultsFound

/-- Body of `ConnectorRegistry.get_all_datasources`: for each registered class in
`sources.values()` order, materialise its `default_query`-scoped query and
extend the accumulated list. -/
def queryAllScoped (session : Session) : List Impl → Except PyErr (List Row)
  | [] => .ok []
  | c :: rest =>
    match session.table c.tag with
    | .error e => .error e
    | .ok rows =>
      match queryAllScoped session rest with
      | .error e => .error e
      | .ok tail => .ok (c.defaultQuery rows ++ tail)

/-- Classmethod `ConnectorRegistry.get_all_datasources` entry point. -/
def get_all_datasources (regs : Registry) (session : Session) :
    Except PyErr (List Row) :=
  queryAllScoped session (regs.map Prod.snd)

/-- The scan loop of `ConnectorRegistry.get_datasource_by_id`: per class, a
`try` block running `filter(id == datasource_id).one()` whose
`except NoResultFound` swallows that exception and moves on; any other
exception (including `MultipleResultsFound` and session failures)
propagates.  When the loop finishes, `raise NoResultFound(...)`. -/
def scanById (session : Session) (datasource_id : Int) :
    List Impl → Except PyErr Row
  | [] =>
    .error (.noResultFound ("Datasource id not found: " ++ toString datasource_id))
  | c :: rest =>
    match session.table c.tag with
    | .error e =>
      if e.isNoResultFound then scanById session datasource_id rest
      else .error e
    | .ok rows =>
      match rows.filter (fun r => r.id = datasource_id) with
      | [] => scanById session datasource_id rest
      | [r] => .ok r
      | _ => .error .multipleResultsFound

/-- Classmethod `ConnectorRegistry.get_datasource_by_id` entry point. -/
def get_datasource_by_id (regs : Registry) (session : Session)
    (datasource_id : Int) : Except PyErr Row :=
  scanById session datasource_id (regs.map Prod.snd)

/-- Classmethod `ConnectorRegistry.get_datasource_by_name`: `cls.sources[tag]` (a
`KeyError` on an unregistered tag), then delegate to the class's own
`get_datasource_by_name`. -/
def get_datasource_by_name (regs : Registry) (session : Session)
    (datasource_type datasource_name schema database_name : String) :
    Except PyErr (Option Row) :=
  match lookupTag regs datasource_type with
  | none => .error (.keyError datasource_type)
  | some c => .ok (c.getByName session datasource_name schema database_name)

/-- Classmethod `ConnectorRegistry.query_datasources_by_permissions`:
`cls.sources[database.type]` (a `KeyError` on an unregistered tag), then
`filter_by(database_id=database.id)`, then
`filter(or_(perm.in_(permissions), schema_perm.in_(schema_perms)))`, then
`.all()`. -/
def query_datasources_by_permissions (regs : Registry) (session : Session)
    (database : Database) (permissions schema_perms : List String) :
    Except PyErr (List Row) :=
  match lookupTag regs database.type with
  | none => .error (.keyError database.type)
  | some c =>
    match session.table c.tag with
    | .error e => .error e
    | .ok rows =>
      .ok (rows.filter (fun r =>
        r.database_id = database.id ∧
          (r.perm ∈ permissions ∨ r.schema_perm ∈ schema_perms)))

/-- Classmethod `ConnectorRegistry.get_eager_datasource`: `cls.sources[tag]` (a
`KeyError` on an unregistered tag), then the query with
`subqueryload(columns)` / `subqueryload(metrics)` options — eager-loading
options that do not change which rows match — then
`filter_by(id=datasource_id).one()`. -/
def get_eager_datasource (regs : Registry) (session : Session)
    (datasource_type : String) (datasource_id : Int) : Except PyErr Row :=
  match lookupTag regs datasource_type with
  | none => .error (.keyError datasource_type)
  | some c =>
    match session.table c.tag with
    | .error e => .error e
    | .ok rows =>
      match rows.filter (fun r => r.id = datasource_id) with
      | [] => .error (.noResultFound ("No row was found for one()"))
      | [r] => .ok r
      | _ => .error .multipleResultsFound

/-- The registry's keys, in iteration order. -/
def regKeys (regs : Registry) : List String :=
  regs.map Prod.fst

/-- The registry invariant a Python `dict` maintains by construction: no key
occurs twice. -/
def NodupKeys (regs : Registry) : Prop :=
  (regKeys regs).Nodup

/-- Decidable equality of call results, for evaluating concrete scenarios. -/
instance decEqResult : DecidableEq (Except PyErr Row) := fun a b =>
  match a, b with
  | .ok a1, .ok b1 => decidable_of_iff (a1 = b1) (by simp)
  | .error a1, .error b1 => decidable_of_iff (a1 = b1) (by simp)
  | .ok _, .error _ => .isFalse (fun h => Except.noConfusion h)
  | .error _, .ok _ => .isFalse (fun h => Except.noConfusion h)

/-! ## Registry lemmas -/

/-- After `cls.sources[t] = c`, looking up `t` yields `c`. -/
theorem lookupTag_dictSet_self (regs : Registry) (t : String) (c : Impl) :
    lookupTag (dictSet regs t c) t = some c := by
  induction regs with
  | nil => simp [dictSet, lookupTag]
  | cons p rest ih =>
    by_cases h : p.1 = t
    · simp [dictSet, h, lookupTag]
    · simp [dictSet, h, lookupTag, ih]

/-- Assignment `cls.sources[t] = c` does not disturb lookups of other keys. -/
theorem lookupTag_dictSet_other (regs : Registry) (t t2 : String) (c : Impl)
    (h : t2 ≠ t) : lookupTag (dictSet regs t c) t2 = lookupTag regs t2 := by
  induction regs with
  | nil =>
    simp [dictSet, lookupTag]
    intro h2
    exact absurd h2.symm h
  | cons p rest ih =>
    by_cases hp : p.1 = t
    · have h1 : ¬ (t = t2) := fun h2 => h h2.symm
      have h2 : ¬ (p.1 = t2) := hp ▸ h1
      simp [dictSet, hp, lookupTag, h1, h2]
    · simp [dictSet, hp, lookupTag, ih]

/-- Assignment `cls.sources[t] = c` leaves the key sequence unchanged when
`t` is already a key, and appends `t` otherwise. -/
theorem regKeys_dictSet (regs : Registry) (t : String) (c : Impl) :
    regKeys (dictSet regs t c) =
      if t ∈ regKeys regs then regKeys regs else regKeys regs ++ [t] := by
  induction regs with
  | nil => simp [dictSet, regKeys]
  | cons p rest ih =>
    by_cases h : p.1 = t
    · simp [dictSet, h, regKeys, List.mem_cons]
    · have hne : ¬ (t = p.1) := fun h2 => h h2.symm
      have hstep : dictSet (p :: rest) t c = p :: dictSet rest t c := by
        simp [dictSet, h]
      have hcons : regKeys (p :: dictSet rest t c) = p.1 :: regKeys (dictSet rest t c) := rfl
      have hcons2 : regKeys (p :: rest) = p.1 :: regKeys rest := rfl
      rw [hstep, hcons, hcons2, ih]
      by_cases hm : t ∈ regKeys rest
      · simp [List.mem_cons, hm]
      · simp [List.mem_cons, hm, hne]

/-- Dict assignment preserves key uniqueness. -/
theorem nodupKeys_dictSet (regs : Registry) (t : String) (c : Impl)
    (h : NodupKeys regs) : NodupKeys (dictSet regs t c) := by
  unfold NodupKeys at h ⊢
  rw [regKeys_dictSet]
  by_cases hm : t ∈ regKeys regs
  · simpa [hm] using h
  · simp only [hm, if_false]
    simp [List.nodup_append, h, List.disjoint_singleton]
    exact hm

/-- Splitting a registration run at a list append. -/
theorem register_sources_append (regs : Registry) (xs ys : List Impl) :
    register_sources regs (xs ++ ys) =
      register_sources (register_sources regs xs) ys := by
  simp [register_sources, List.foldl_append]

/-- Any registration run preserves key uniqueness. -/
theorem nodupKeys_register_sources (regs : Registry) (config : List Impl)
    (h : NodupKeys regs) : NodupKeys (register_sources regs config) := by
  induction config generalizing regs with
  | nil => exact h
  | cons c rest ih =>
    have : register_sources regs (c :: rest) =
        register_sources (dictSet regs c.tag c) rest := rfl
    rw [this]
    exact ih _ (nodupKeys_dictSet _ _ _ h)

/-- Registering classes with other tags does not disturb a lookup. -/
theorem lookupTag_register_sources_other (regs : Registry)
    (config : List Impl) (t : String) (h : ∀ d ∈ config, d.tag ≠ t) :
    lookupTag (register_sources regs config) t = lookupTag regs t := by
  induction config generalizing regs with
  | nil => rfl
  | cons c rest ih =>
    have hstep : register_sources regs (c :: rest) =
        register_sources (dictSet regs c.tag c) rest := rfl
    rw [hstep, ih _ (fun d hd => h d (List.mem_cons_of_mem c hd)),
      lookupTag_dictSet_other]
    exact fun h2 => h c (List.mem_cons_self c rest) h2.symm

/-! ## Concrete fixtures used by witnesses and counterexamples -/

/-- A row of implementation `x`, id 1, owned by database 1. -/
def rowX1 : Row := ⟨1, 1, ("pa"), ("sa"), ("nx1")⟩

/-- A row of implementation `x`, id 2, owned by database 1. -/
def rowX2 : Row := ⟨2, 1, ("pb"), ("sb"), ("nx2")⟩

/-- A row of implementation `x`, id 3, owned by database 2. -/
def rowX3 : Row := ⟨3, 2, ("pa"), ("sc"), ("nx3")⟩

/-- A row of implementation `y`, sharing id 1 with `rowX1`. -/
def rowY1 : Row := ⟨1, 1, ("pc"), ("sa"), ("ny1")⟩

/-- A fixture implementation with tag `x` whose default query drops rows of
database 2. -/
def implX : Impl :=
  ⟨("x"), fun rows => rows.filter (fun r => r.database_id = 1),
    fun _ _ _ _ => none⟩

/-- A fixture implementation with tag `y` whose lookup-by-name finds
`rowY1` under its name. -/
def implY : Impl :=
  ⟨("y"), fun rows => rows,
    fun _ n _ _ => if n = ("ny1") then some rowY1 else none⟩

/-- The fixture table contents: three `x` rows and one `y` row. -/
def tablesXY : String → List Row :=
  fun t => if t = ("x") then [rowX1, rowX2, rowX3]
    else if t = ("y") then [rowY1] else []

/-- A healthy fixture session over `tablesXY`. -/
def sessXY : Session := ⟨fun t => .ok (tablesXY t)⟩

/-- The fixture registry holding `implX` then `implY`. -/
def regsXY : Registry := [(("x"), implX), (("y"), implY)]

/-! ## Claim C1 -/

/-- Claim C1: for every id and session, `get_datasource` with a type tag
that is not registered fails (with the `DatasetNotFoundError` the code
raises at its membership check), with a result that does not depend on the
id argument and never consults the session. -/
theorem claim1_unregistered_tag_fails (regs : Registry) (tag : String)
    (h : lookupTag regs tag = none) (datasource_id : Int) (session : Session) :
    get_datasource regs tag datasource_id session = .error .datasetNotFound := by
  unfold get_datasource
  rw [h]

/-- Witness for claim C1 at the tag `z`, id 7, and the fixture session. -/
theorem claim1_witness :
    lookupTag regsXY ("z") = none ∧
    get_datasource regsXY ("z") 7 sessXY = .error .datasetNotFound :=
  ⟨rfl, claim1_unregistered_tag_fails regsXY ("z") rfl 7 sessXY⟩

/-! ## Claim C3 -/

/-- Claim C3: any registration run from a duplicate-free registry keeps at
most one implementation per tag, and after registering `c` (with no later
registration reusing the tag of `c`) a lookup of that tag resolves to `c`:
the most recent registration wins. -/
theorem claim3_last_registration_wins (regs : Registry)
    (cfgA cfgB : List Impl) (c : Impl) (hnd : NodupKeys regs)
    (hB : ∀ d ∈ cfgB, d.tag ≠ c.tag) :
    NodupKeys (register_sources regs (cfgA ++ c :: cfgB)) ∧
    lookupTag (register_sources regs (cfgA ++ c :: cfgB)) c.tag = some c := by
  constructor
  · exact nodupKeys_register_sources _ _ hnd
  · have hsplit : cfgA ++ c :: cfgB = (cfgA ++ [c]) ++ cfgB := by simp
    rw [hsplit, register_sources_append, lookupTag_register_sources_other _ _ _ hB,
      register_sources_append]
    exact lookupTag_dictSet_self (register_sources regs cfgA) c.tag c

/-- Witness for claim C3: registering `implX`, then a first `y`
implementation, then `implY` under the same tag `y`; the lookup of `y`
resolves to the later `implY`. -/
theorem claim3_witness :
    NodupKeys ([] : Registry) ∧
    (∀ d ∈ ([] : List Impl), d.tag ≠ implY.tag) ∧
    (NodupKeys (register_sources []
        ([implX, ⟨("y"), fun rows => rows, fun _ _ _ _ => none⟩] ++ implY :: [])) ∧
      lookupTag (register_sources []
        ([implX, ⟨("y"), fun rows => rows, fun _ _ _ _ => none⟩] ++ implY :: []))
        implY.tag = some implY) :=
  ⟨by simp [NodupKeys, regKeys], by simp,
    claim3_last_registration_wins []
      [implX, ⟨("y"), fun rows => rows, fun _ _ _ _ => none⟩] [] implY
      (by simp [NodupKeys, regKeys]) (by simp)⟩

/-! ## Claim C2 -/

/-- Claim C2 (amended): for a registered tag whose class table the session
yields, `get_datasource` returns the row exactly when exactly one row has
the given id; it fails with `DatasetNotFoundError` exactly when no row has
the id; and it fails with `MultipleResultsFound` — propagated from the
one-or-none lookup, a different failure kind than the zero-row case —
exactly when several rows have the id. -/
theorem claim2_one_or_none_semantics (regs : Registry) (tag : String)
    (c : Impl) (datasource_id : Int) (session : Session) (rows : List Row)
    (hreg : lookupTag regs tag = some c)
    (htab : session.table c.tag = .ok rows) :
    (∀ r : Row, get_datasource regs tag datasource_id session = .ok r ↔
      rows.filter (fun r2 => r2.id = datasource_id) = [r]) ∧
    (get_datasource regs tag datasource_id session = .error .datasetNotFound ↔
      rows.filter (fun r2 => r2.id = datasource_id) = []) ∧
    (get_datasource regs tag datasource_id session =
        .error .multipleResultsFound ↔
      2 ≤ (rows.filter (fun r2 => r2.id = datasource_id)).length) := by
  simp only [get_datasource, hreg, htab]
  rcases hm : rows.filter (fun r2 => r2.id = datasource_id) with - | ⟨r1, - | ⟨r2, rs⟩⟩
  · rw [hm]
    simp
  · rw [hm]
    simp
  · rw [hm]
    simp

/-- Witness for claim C2 at the fixture registry, tag `x`, id 2: exactly
one row matches and is returned. -/
theorem claim2_witness :
    lookupTag regsXY ("x") = some implX ∧
    sessXY.table implX.tag = .ok [rowX1, rowX2, rowX3] ∧
    ((∀ r : Row, get_datasource regsXY ("x") 2 sessXY = .ok r ↔
        [rowX1, rowX2, rowX3].filter (fun r2 => r2.id = 2) = [r]) ∧
      (get_datasource regsXY ("x") 2 sessXY = .error .datasetNotFound ↔
        [rowX1, rowX2, rowX3].filter (fun r2 => r2.id = 2) = []) ∧
      (get_datasource regsXY ("x") 2 sessXY = .error .multipleResultsFound ↔
        2 ≤ ([rowX1, rowX2, rowX3].filter (fun r2 => r2.id = 2)).length)) :=
  ⟨rfl, rfl, claim2_one_or_none_semantics regsXY ("x") implX 2 sessXY
    [rowX1, rowX2, rowX3] rfl rfl⟩

/-- A session whose `x` table holds two distinct rows that share id 1. -/
def sessDupId : Session :=
  ⟨fun t => if t = ("x") then .ok [rowX1, ⟨1, 1, ("pd"), ("sd"), ("dup")⟩]
    else .ok []⟩

/-- Counterexample to claim C2 as stated: with two rows of id 1 the call
fails with `MultipleResultsFound`, while the zero-row id 9 fails with
`DatasetNotFoundError` — the ambiguous case is not surfaced as the same
failure kind as the zero-row case. -/
theorem claim2_counterexample :
    get_datasource regsXY ("x") 1 sessDupId = .error .multipleResultsFound ∧
    get_datasource regsXY ("x") 9 sessDupId = .error .datasetNotFound ∧
    PyErr.multipleResultsFound ≠ PyErr.datasetNotFound := by
  refine ⟨rfl, rfl, by decide⟩

/-! ## Claim C4 -/

/-- Claim C4: for a database whose type is registered,
`query_datasources_by_permissions` keeps exactly the rows whose
`database_id` equals the database id and whose `perm` is among
`permissions` or whose `schema_perm` is among `schema_perms`; a row
matching only the database-id condition is excluded. -/
theorem claim4_query_by_permissions (regs : Registry) (session : Session)
    (database : Database) (c : Impl) (rows : List Row)
    (permissions schema_perms : List String)
    (hreg : lookupTag regs database.type = some c)
    (htab : session.table c.tag = .ok rows) :
    query_datasources_by_permissions regs session database permissions
        schema_perms =
      .ok (rows.filter (fun r => r.database_id = database.id ∧
        (r.perm ∈ permissions ∨ r.schema_perm ∈ schema_perms))) ∧
    ∀ r : Row,
      r ∈ rows.filter (fun r2 => r2.database_id = database.id ∧
          (r2.perm ∈ permissions ∨ r2.schema_perm ∈ schema_perms)) ↔
        r ∈ rows ∧ r.database_id = database.id ∧
          (r.perm ∈ permissions ∨ r.schema_perm ∈ schema_perms) := by
  constructor
  · simp only [query_datasources_by_permissions, hreg, htab]
  · intro r
    simp [List.mem_filter, and_assoc]

/-- The fixture database of id 1 and type `x`. -/
def dbOne : Database := ⟨1, ("x")⟩

/-- Witness for claim C4: of the three `x` rows, `rowX1` passes by `perm`,
`rowX2` passes by `schema_perm`, and `rowX3` fails the database-id
condition; with `rowX2`-excluding permission sets only `rowX1` survives. -/
theorem claim4_witness :
    lookupTag regsXY dbOne.type = some implX ∧
    sessXY.table implX.tag = .ok [rowX1, rowX2, rowX3] ∧
    (query_datasources_by_permissions regsXY sessXY dbOne [("pa")] [("sz")] =
        .ok ([rowX1, rowX2, rowX3].filter (fun r => r.database_id = dbOne.id ∧
          (r.perm ∈ [("pa")] ∨ r.schema_perm ∈ [("sz")]))) ∧
      ∀ r : Row,
        r ∈ [rowX1, rowX2, rowX3].filter (fun r2 => r2.database_id = dbOne.id ∧
            (r2.perm ∈ [("pa")] ∨ r2.schema_perm ∈ [("sz")])) ↔
          r ∈ [rowX1, rowX2, rowX3] ∧ r.database_id = dbOne.id ∧
            (r.perm ∈ [("pa")] ∨ r.schema_perm ∈ [("sz")])) :=
  ⟨rfl, rfl, claim4_query_by_permissions regsXY sessXY dbOne implX
    [rowX1, rowX2, rowX3] [("pa")] [("sz")] rfl rfl⟩

/-! ## Claim C7 -/

/-- With a healthy session over tables `T`, the accumulation loop of
`get_all_datasources` concatenates each class's `default_query`-scoped
rows in iteration order. -/
theorem queryAllScoped_flatten (session : Session) (T : String → List Row)
    (hS : ∀ t, session.table t = .ok (T t)) (impls : List Impl) :
    queryAllScoped session impls =
      .ok ((impls.map (fun c => c.defaultQuery (T c.tag))).flatten) := by
  induction impls with
  | nil => rfl
  | cons c rest ih =>
    simp only [queryAllScoped, hS, ih, List.map_cons, List.flatten_cons]

/-- Claim C7: with a healthy session over tables `T`,
`get_all_datasources` returns, for every registered class in registry
iteration order, that class's table after its own `default_query` hook,
concatenated; a row appears in the result exactly when some registered
class contributes it, so an unregistered class contributes nothing. -/
theorem claim7_all_default_scoped (regs : Registry) (session : Session)
    (T : String → List Row) (hS : ∀ t, session.table t = .ok (T t)) :
    get_all_datasources regs session =
      .ok (((regs.map Prod.snd).map (fun c => c.defaultQuery (T c.tag))).flatten) ∧
    ∀ r : Row,
      r ∈ ((regs.map Prod.snd).map (fun c => c.defaultQuery (T c.tag))).flatten ↔
        ∃ c ∈ regs.map Prod.snd, r ∈ c.defaultQuery (T c.tag) := by
  constructor
  · exact queryAllScoped_flatten session T hS _
  · intro r
    rw [List.mem_flatten]
    constructor
    · rintro ⟨l, hl, hr⟩
      rcases List.mem_map.mp hl with ⟨c, hc, rfl⟩
      exact ⟨c, hc, hr⟩
    · rintro ⟨c, hc, hr⟩
      exact ⟨c.defaultQuery (T c.tag), List.mem_map_of_mem _ hc, hr⟩

/-- Witness for claim C7 at the fixture registry and session: the scoping
hook of `implX` drops `rowX3` and `implY` contributes `rowY1`. -/
theorem claim7_witness :
    (∀ t, sessXY.table t = .ok (tablesXY t)) ∧
    (get_all_datasources regsXY sessXY =
        .ok (((regsXY.map Prod.snd).map
          (fun c => c.defaultQuery (tablesXY c.tag))).flatten) ∧
      ∀ r : Row,
        r ∈ ((regsXY.map Prod.snd).map
            (fun c => c.defaultQuery (tablesXY c.tag))).flatten ↔
          ∃ c ∈ regsXY.map Prod.snd, r ∈ c.defaultQuery (tablesXY c.tag)) :=
  ⟨fun _ => rfl, claim7_all_default_scoped regsXY sessXY tablesXY (fun _ => rfl)⟩

/-! ## Claim C9 -/

/-- Claim C9: `get_datasource_by_name` fails on an unregistered tag (with
the `KeyError` of the unchecked `cls.sources` subscript); on a registered
tag it returns exactly what the class's own `get_datasource_by_name`
returns, and a non-matching name is surfaced as the empty result `none`
rather than a failure. -/
theorem claim9_by_name_delegation (regs : Registry) (session : Session)
    (t1 t2 datasource_name schema database_name : String) (c : Impl)
    (h1 : lookupTag regs t1 = none)
    (h2 : lookupTag regs t2 = some c) :
    get_datasource_by_name regs session t1 datasource_name schema
        database_name = .error (.keyError t1) ∧
    get_datasource_by_name regs session t2 datasource_name schema
        database_name =
      .ok (c.getByName session datasource_name schema database_name) ∧
    (c.getByName session datasource_name schema database_name = none →
      get_datasource_by_name regs session t2 datasource_name schema
        database_name = .ok none) := by
  refine ⟨?_, ?_, ?_⟩
  · simp only [get_datasource_by_name, h1]
  · simp only [get_datasource_by_name, h2]
  · intro hn
    simp only [get_datasource_by_name, h2, hn]

/-- Witness for claim C9 at the fixture registry: tag `z` is unregistered,
tag `y` delegates to the lookup of `implY`, and a missing name comes back
as `none`. -/
theorem claim9_witness :
    lookupTag regsXY ("z") = none ∧
    lookupTag regsXY ("y") = some implY ∧
    (get_datasource_by_name regsXY sessXY ("z") ("missing") ("sch") ("db") =
        .error (.keyError ("z")) ∧
      get_datasource_by_name regsXY sessXY ("y") ("missing") ("sch") ("db") =
        .ok (implY.getByName sessXY ("missing") ("sch") ("db")) ∧
      (implY.getByName sessXY ("missing") ("sch") ("db") = none →
        get_datasource_by_name regsXY sessXY ("y") ("missing") ("sch") ("db") =
          .ok none)) :=
  ⟨rfl, rfl, claim9_by_name_delegation regsXY sessXY ("z") ("y") ("missing")
    ("sch") ("db") implY rfl rfl⟩

/-! ## Claim C5 -/

/-- With a healthy session over tables `T`, the by-id scan reports the
final not-found exception exactly when no scanned class has a row with the
requested id. -/
theorem scanById_notFound_iff (session : Session) (T : String → List Row)
    (hS : ∀ t, session.table t = .ok (T t)) (did : Int) (impls : List Impl) :
    scanById session did impls =
        .error (.noResultFound ("Datasource id not found: " ++ toString did)) ↔
      ∀ c ∈ impls, (T c.tag).filter (fun r => r.id = did) = [] := by
  induction impls with
  | nil => simp [scanById]
  | cons c rest ih =>
    rcases hm : (T c.tag).filter (fun r => r.id = did) with - | ⟨r1, - | ⟨r2, rs⟩⟩
    · simp only [scanById, hS, hm]
      rw [ih, List.forall_mem_cons]
      exact ⟨fun h => ⟨hm, h⟩, fun h => h.2⟩
    · simp only [scanById, hS, hm]
      constructor
      · intro h
        exact absurd h (by simp)
      · intro h
        have h0 := h c (List.mem_cons_self c rest)
        rw [hm] at h0
        exact absurd h0 (by simp)
    · simp only [scanById, hS, hm]
      constructor
      · intro h
        exact absurd h (by simp)
      · intro h
        have h0 := h c (List.mem_cons_self c rest)
        rw [hm] at h0
        exact absurd h0 (by simp)

/-- With a healthy session over tables `T`, the by-id scan succeeds with
`r` exactly when some scanned class has `r` as its single matching row and
every class before it has no matching row. -/
theorem scanById_ok_iff (session : Session) (T : String → List Row)
    (hS : ∀ t, session.table t = .ok (T t)) (did : Int) (impls : List Impl)
    (r : Row) :
    scanById session did impls = .ok r ↔
      ∃ l1 c l2, impls = l1 ++ c :: l2 ∧
        (∀ d ∈ l1, (T d.tag).filter (fun r2 => r2.id = did) = []) ∧
        (T c.tag).filter (fun r2 => r2.id = did) = [r] := by
  induction impls with
  | nil =>
    simp only [scanById]
    constructor
    · intro h
      exact absurd h (by simp)
    · rintro ⟨l1, c, l2, heq, -, -⟩
      exact absurd heq (by simp)
  | cons c rest ih =>
    rcases hm : (T c.tag).filter (fun r2 => r2.id = did) with - | ⟨r1, - | ⟨r2, rs⟩⟩
    · simp only [scanById, hS, hm]
      rw [ih]
      constructor
      · rintro ⟨l1, d, l2, rfl, hpre, hd⟩
        refine ⟨c :: l1, d, l2, rfl, ?_, hd⟩
        intro d2 hd2
        rcases List.mem_cons.mp hd2 with h2 | h2
        · rw [h2]
          exact hm
        · exact hpre d2 h2
      · rintro ⟨l1, d, l2, heq, hpre, hd⟩
        cases l1 with
        | nil =>
          simp only [List.nil_append, List.cons.injEq] at heq
          rcases heq with ⟨rfl, rfl⟩
          rw [hm] at hd
          exact absurd hd (by simp)
        | cons e l1t =>
          simp only [List.cons_append, List.cons.injEq] at heq
          rcases heq with ⟨rfl, rfl⟩
          exact ⟨l1t, d, l2, rfl,
            fun d2 h2 => hpre d2 (List.mem_cons_of_mem _ h2), hd⟩
    · simp only [scanById, hS, hm]
      constructor
      · intro h
        have hr : r1 = r := Except.ok.inj h
        exact ⟨[], c, rest, rfl, by simp, hr ▸ hm⟩
      · rintro ⟨l1, d, l2, heq, hpre, hd⟩
        cases l1 with
        | nil =>
          simp only [List.nil_append, List.cons.injEq] at heq
          rcases heq with ⟨rfl, rfl⟩
          rw [hm] at hd
          simp only [List.cons.injEq, and_true] at hd
          rw [hd]
        | cons e l1t =>
          simp only [List.cons_append, List.cons.injEq] at heq
          rcases heq with ⟨rfl, rfl⟩
          have h0 := hpre c (List.mem_cons_self c l1t)
          rw [hm] at h0
          exact absurd h0 (by simp)
    · simp only [scanById, hS, hm]
      constructor
      · intro h
        exact absurd h (by simp)
      · rintro ⟨l1, d, l2, heq, hpre, hd⟩
        cases l1 with
        | nil =>
          simp only [List.nil_append, List.cons.injEq] at heq
          rcases heq with ⟨rfl, rfl⟩
          rw [hm] at hd
          exact absurd hd (by simp)
        | cons e l1t =>
          simp only [List.cons_append, List.cons.injEq] at heq
          rcases heq with ⟨rfl, rfl⟩
          have h0 := hpre c (List.mem_cons_self c l1t)
          rw [hm] at h0
          exact absurd h0 (by simp)

/-- Claim C5: with a healthy session, `get_datasource_by_id` scans the
registered classes in registry iteration order and returns the single
matching row of the first class with a match; it fails with the final
not-found exception exactly when no registered class has a matching row. -/
theorem claim5_by_id_scan (regs : Registry) (session : Session)
    (T : String → List Row) (did : Int)
    (hS : ∀ t, session.table t = .ok (T t)) :
    (get_datasource_by_id regs session did =
        .error (.noResultFound ("Datasource id not found: " ++ toString did)) ↔
      ∀ c ∈ regs.map Prod.snd, (T c.tag).filter (fun r => r.id = did) = []) ∧
    (∀ r : Row, get_datasource_by_id regs session did = .ok r ↔
      ∃ l1 c l2, regs.map Prod.snd = l1 ++ c :: l2 ∧
        (∀ d ∈ l1, (T d.tag).filter (fun r2 => r2.id = did) = []) ∧
        (T c.tag).filter (fun r2 => r2.id = did) = [r]) := by
  unfold get_datasource_by_id
  exact ⟨scanById_notFound_iff session T hS did _,
    fun r => scanById_ok_iff session T hS did _ r⟩

/-- Witness for claim C5 at the fixture registry, id 1: `implX` is first
and holds exactly one id-1 row, so that row is returned even though
`implY` also has an id-1 row. -/
theorem claim5_witness :
    (∀ t, sessXY.table t = .ok (tablesXY t)) ∧
    ((get_datasource_by_id regsXY sessXY 1 =
        .error (.noResultFound ("Datasource id not found: " ++ toString (1 : Int))) ↔
      ∀ c ∈ regsXY.map Prod.snd,
        (tablesXY c.tag).filter (fun r => r.id = 1) = []) ∧
    (∀ r : Row, get_datasource_by_id regsXY sessXY 1 = .ok r ↔
      ∃ l1 c l2, regsXY.map Prod.snd = l1 ++ c :: l2 ∧
        (∀ d ∈ l1, (tablesXY d.tag).filter (fun r2 => r2.id = 1) = []) ∧
        (tablesXY c.tag).filter (fun r2 => r2.id = 1) = [r])) :=
  ⟨fun _ => rfl, claim5_by_id_scan regsXY sessXY tablesXY 1 (fun _ => rfl)⟩

/-! ## Claim C6 -/

/-- A fixture session whose `x` table is empty and whose `y` table fails
with a session error. -/
def sessFailY : Session :=
  ⟨fun t => if t = ("x") then .ok []
    else if t = ("y") then .error (.sessionError 5) else .ok []⟩

/-- Claim C6: during the by-id scan, a class whose one-row lookup comes up
empty is swallowed — the scan continues identically on the remaining
classes — while a failure of the persistence session itself (any
exception other than `NoResultFound`) propagates immediately, aborting the
scan no matter what classes follow. -/
theorem claim6_scan_error_policy (session : Session) (did : Int)
    (regs : Registry) (c1 c2 : Impl) (rest : List Impl) (rows1 : List Row)
    (e : PyErr)
    (h1 : session.table c1.tag = .ok rows1)
    (h2 : rows1.filter (fun r => r.id = did) = [])
    (h3 : session.table c2.tag = .error e)
    (h4 : e.isNoResultFound = false)
    (hmap : regs.map Prod.snd = c1 :: c2 :: rest) :
    (∀ l : List Impl,
      scanById session did (c1 :: l) = scanById session did l) ∧
    (∀ l : List Impl, scanById session did (c2 :: l) = .error e) ∧
    get_datasource_by_id regs session did = .error e := by
  have hswallow : ∀ l : List Impl,
      scanById session did (c1 :: l) = scanById session did l := by
    intro l
    simp only [scanById, h1]
    rw [h2]
  have hprop : ∀ l : List Impl, scanById session did (c2 :: l) = .error e := by
    intro l
    simp only [scanById, h3]
    simp [h4]
  refine ⟨hswallow, hprop, ?_⟩
  unfold get_datasource_by_id
  rw [hmap, hswallow, hprop]

/-- Witness for claim C6: scanning the fixture registry with `sessFailY`
swallows the empty `x` table and then propagates the session error of the
`y` table. -/
theorem claim6_witness :
    sessFailY.table implX.tag = .ok [] ∧
    ([] : List Row).filter (fun r => r.id = 1) = [] ∧
    sessFailY.table implY.tag = .error (.sessionError 5) ∧
    (PyErr.sessionError 5).isNoResultFound = false ∧
    regsXY.map Prod.snd = implX :: implY :: [] ∧
    ((∀ l : List Impl,
        scanById sessFailY 1 (implX :: l) = scanById sessFailY 1 l) ∧
      (∀ l : List Impl,
        scanById sessFailY 1 (implY :: l) = .error (.sessionError 5)) ∧
      get_datasource_by_id regsXY sessFailY 1 = .error (.sessionError 5)) :=
  ⟨rfl, rfl, rfl, rfl, rfl,
    claim6_scan_error_policy sessFailY 1 regsXY implX implY [] []
      (.sessionError 5) rfl rfl rfl rfl rfl⟩

/-! ## Claim C10 -/

/-- Classes whose one-row lookup comes up empty are skipped by the scan. -/
theorem scanById_skip_empty_classes (session : Session) (did : Int)
    (l : List Impl) :
    ∀ l1 : List Impl,
      (∀ d ∈ l1, ∃ rowsd, session.table d.tag = .ok rowsd ∧
        rowsd.filter (fun r => r.id = did) = []) →
      scanById session did (l1 ++ l) = scanById session did l := by
  intro l1
  induction l1 with
  | nil =>
    intro _
    rfl
  | cons d l1t ih =>
    intro hpre
    rcases hpre d (List.mem_cons_self d l1t) with ⟨rowsd, hd1, hd2⟩
    simp only [List.cons_append, scanById, hd1]
    rw [hd2]
    exact ih (fun d2 h2 => hpre d2 (List.mem_cons_of_mem _ h2))

/-- A class with several matching rows makes the scan fail at once with
`MultipleResultsFound`. -/
theorem scanById_multiple_step (session : Session) (did : Int) (c : Impl)
    (rows : List Row) (r1 r2 : Row) (rs : List Row)
    (hc : session.table c.tag = .ok rows)
    (hm : rows.filter (fun r => r.id = did) = r1 :: r2 :: rs)
    (l : List Impl) :
    scanById session did (c :: l) = .error .multipleResultsFound := by
  simp only [scanById, hc]
  rw [hm]

/-- Claim C10: if, after a prefix of classes without matches, some class
has more than one row matching the id, the scan fails immediately with
`MultipleResultsFound` whatever classes follow — even one that would have
exactly one match — and so does `get_datasource_by_id`. -/
theorem claim10_multiple_match_aborts (session : Session) (did : Int)
    (regs : Registry) (l1 : List Impl) (c : Impl) (restR : List Impl)
    (rows : List Row) (r1 r2 : Row) (rs : List Row)
    (hpre : ∀ d ∈ l1, ∃ rowsd, session.table d.tag = .ok rowsd ∧
      rowsd.filter (fun r => r.id = did) = [])
    (hc : session.table c.tag = .ok rows)
    (hm : rows.filter (fun r => r.id = did) = r1 :: r2 :: rs)
    (hmap : regs.map Prod.snd = l1 ++ c :: restR) :
    (∀ rest : List Impl, scanById session did (l1 ++ c :: rest) =
      .error .multipleResultsFound) ∧
    get_datasource_by_id regs session did = .error .multipleResultsFound := by
  have habort : ∀ rest : List Impl,
      scanById session did (l1 ++ c :: rest) = .error .multipleResultsFound := by
    intro rest
    rw [scanById_skip_empty_classes session did (c :: rest) l1 hpre]
    exact scanById_multiple_step session did c rows r1 r2 rs hc hm rest
  refine ⟨habort, ?_⟩
  unfold get_datasource_by_id
  rw [hmap]
  exact habort restR

/-- Witness for claim C10: with duplicated id-1 rows in the `x` table, the
scan aborts with `MultipleResultsFound` although `implY` (registered
after `implX`) has exactly one id-1 row in `sessDupId`. -/
theorem claim10_witness :
    (∀ d ∈ ([] : List Impl), ∃ rowsd, sessDupId.table d.tag = .ok rowsd ∧
      rowsd.filter (fun r => r.id = 1) = []) ∧
    sessDupId.table implX.tag = .ok [rowX1, ⟨1, 1, ("pd"), ("sd"), ("dup")⟩] ∧
    ([rowX1, ⟨1, 1, ("pd"), ("sd"), ("dup")⟩] : List Row).filter
        (fun r => r.id = 1) = rowX1 :: ⟨1, 1, ("pd"), ("sd"), ("dup")⟩ :: [] ∧
    regsXY.map Prod.snd = [] ++ implX :: [implY] ∧
    ((∀ rest : List Impl, scanById sessDupId 1 ([] ++ implX :: rest) =
        .error .multipleResultsFound) ∧
      get_datasource_by_id regsXY sessDupId 1 = .error .multipleResultsFound) :=
  ⟨by simp, rfl, by decide, rfl,
    claim10_multiple_match_aborts sessDupId 1 regsXY [] implX [implY]
      [rowX1, ⟨1, 1, ("pd"), ("sd"), ("dup")⟩] rowX1
      ⟨1, 1, ("pd"), ("sd"), ("dup")⟩ [] (by simp) rfl (by decide) rfl⟩

/-! ## Claim C8 -/

/-- Claim C8 (amended): `get_eager_datasource` fails in the same two
situations as `get_datasource` — unregistered tag and no matching row —
but with different exception kinds: the unchecked `cls.sources` subscript
raises `KeyError` for an unregistered tag and the `one()` call raises
`NoResultFound` for a missing row, whereas `get_datasource` raises
`DatasetNotFoundError` in both situations. -/
theorem claim8_eager_failure_kinds (regs : Registry) (session : Session)
    (t1 t2 : String) (c : Impl) (rows : List Row) (did : Int)
    (h1 : lookupTag regs t1 = none)
    (h2 : lookupTag regs t2 = some c)
    (h3 : session.table c.tag = .ok rows)
    (h4 : rows.filter (fun r => r.id = did) = []) :
    get_eager_datasource regs session t1 did = .error (.keyError t1) ∧
    get_datasource regs t1 did session = .error .datasetNotFound ∧
    get_eager_datasource regs session t2 did =
      .error (.noResultFound ("No row was found for one()")) ∧
    get_datasource regs t2 did session = .error .datasetNotFound ∧
    PyErr.keyError t1 ≠ PyErr.datasetNotFound ∧
    PyErr.noResultFound ("No row was found for one()") ≠
      PyErr.datasetNotFound := by
  refine ⟨?_, ?_, ?_, ?_, by simp, by simp⟩
  · simp only [get_eager_datasource, h1]
  · simp only [get_datasource, h1]
  · simp only [get_eager_datasource, h2, h3]
    rw [h4]
  · simp only [get_datasource, h2, h3]
    rw [h4]

/-- Witness for claim C8 at the fixture registry: tag `z` is unregistered
and id 9 matches no `x` row. -/
theorem claim8_witness :
    lookupTag regsXY ("z") = none ∧
    lookupTag regsXY ("x") = some implX ∧
    sessXY.table implX.tag = .ok [rowX1, rowX2, rowX3] ∧
    ([rowX1, rowX2, rowX3] : List Row).filter (fun r => r.id = 9) = [] ∧
    (get_eager_datasource regsXY sessXY ("z") 9 = .error (.keyError ("z")) ∧
      get_datasource regsXY ("z") 9 sessXY = .error .datasetNotFound ∧
      get_eager_datasource regsXY sessXY ("x") 9 =
        .error (.noResultFound ("No row was found for one()")) ∧
      get_datasource regsXY ("x") 9 sessXY = .error .datasetNotFound ∧
      PyErr.keyError ("z") ≠ PyErr.datasetNotFound ∧
      PyErr.noResultFound ("No row was found for one()") ≠
        PyErr.datasetNotFound) :=
  ⟨rfl, rfl, rfl, by decide,
    claim8_eager_failure_kinds regsXY sessXY ("z") ("x") implX
      [rowX1, rowX2, rowX3] 9 rfl rfl rfl (by decide)⟩

/-- Counterexample to claim C8 as stated: on an unregistered tag
`get_eager_datasource` raises `KeyError` where `get_datasource` raises
`DatasetNotFoundError`, and on a missing row it raises `NoResultFound`
where `get_datasource` raises `DatasetNotFoundError` — the failures are
not identical. -/
theorem claim8_counterexample :
    get_eager_datasource regsXY sessXY ("z") 9 = .error (.keyError ("z")) ∧
    get_datasource regsXY ("z") 9 sessXY = .error .datasetNotFound ∧
    get_eager_datasource regsXY sessXY ("x") 9 =
      .error (.noResultFound ("No row was found for one()")) ∧
    get_datasource regsXY ("x") 9 sessXY = .error .datasetNotFound ∧
    get_eager_datasource regsXY sessXY ("z") 9 ≠
      get_datasource regsXY ("z") 9 sessXY ∧
    get_eager_datasource regsXY sessXY ("x") 9 ≠
      get_datasource regsXY ("x") 9 sessXY := by
  refine ⟨rfl, rfl, rfl, rfl, by decide, by decide⟩

end Superset
